import Mathlib

/-!
Shallow embedding of the Agentic-AI-Stock-Analysis-Crew repository
(`market_analysis_crew.py`, `financial_tools.py`) and proofs about it.

Python exceptions are modelled with `Except PyError`; `None`/NaN-valued
floats with `Option ℝ`; Python dicts with fixed key sets as structures or
association lists; the global `agent_messages` queue as an explicit
`ChannelState` threaded through the functions that touch it.
-/

namespace StockCrew

/-- Kinds of Python exception relevant to the code: `litellm.APIConnectionError`
(the only retryable kind in the tenacity decorators), `IndexError` (raised by
`np.percentile` on an empty array), and a catch-all for everything else. -/
inductive PyError where
  | apiConnectionError (msg : String)
  | indexError (msg : String)
  | valueError (msg : String)
  | typeError (msg : String)
  | other (msg : String)
deriving Repr, DecidableEq

/-- `retry_if_exception_type(APIConnectionError)`: the predicate tenacity uses
to decide whether a failure is retried. -/
def PyError.isAPIConnectionError : PyError → Bool
  | .apiConnectionError _ => true
  | _ => false

/-- The message text of an exception, as `str(e)` would render it. -/
def PyError.msg : PyError → String
  | .apiConnectionError m => m
  | .indexError m => m
  | .valueError m => m
  | .typeError m => m
  | .other m => m

/-- One entry of the global `agent_messages` queue, as built by
`AgentCallback._add_message`: timestamp, agent role, message text, status
string (one of "start", "progress", "complete") and an optional result.
Timestamps are modelled as a logical clock (a counter of publishes). -/
structure ProgressEvent where
  timestamp : Nat
  agent : String
  message : String
  status : String
  result : Option String
deriving Repr, DecidableEq

/-- The state of the process-wide `agent_messages : queue.Queue`: the FIFO
list of pending events (head = oldest) plus the logical clock used to stamp
the next event. -/
structure ChannelState where
  queue : List ProgressEvent
  clock : Nat
deriving Repr, DecidableEq

/-- `AgentCallback._add_message`: stamp the event and put it on the global
queue (a `queue.Queue.put`, i.e. append at the tail). -/
def addMessage (agent message status : String) (result : Option String)
    (st : ChannelState) : ChannelState :=
  { queue := st.queue ++ [⟨st.clock, agent, message, status, result⟩]
    clock := st.clock + 1 }

/-- `AgentCallback.on_start`. -/
def onStart (agent task : String) (st : ChannelState) : ChannelState :=
  addMessage agent ("Starting task: " ++ task) "start" none st

/-- `AgentCallback.on_progress`. -/
def onProgress (agent message : String) (st : ChannelState) : ChannelState :=
  addMessage agent message "progress" none st

/-- `AgentCallback.on_complete`. -/
def onComplete (agent : String) (result : String) (st : ChannelState) : ChannelState :=
  addMessage agent "Task completed" "complete" (some result) st

/-- `MarketAnalysisCrew.get_agent_messages`: drain the queue (`while not
empty: append(get())`), returning all queued events in publish order and the
emptied channel. -/
def get_agent_messages (st : ChannelState) : List ProgressEvent × ChannelState :=
  (st.queue, { st with queue := [] })

/-- tenacity `wait_exponential(multiplier=1, min=4, max=10)` evaluated after
the attempt numbered `attemptNumber`: `max(min, min(multiplier * 2 **
attempt_number, max))` (time units are whole seconds here). -/
def wait_exponential (multiplier mn mx attemptNumber : Nat) : Nat :=
  max mn (min (multiplier * 2 ^ attemptNumber) mx)

/-- One un-retried pass through the body of `EnhancedAgent.execute_task`:
emit `start`, emit the synthetic "Analyzing data..." progress event, call the
underlying model (`super().execute_task`, modelled by `oracle` indexed by the
attempt number); on success emit `complete` and return the result, on any
exception emit an error `progress` event and re-raise. -/
def executeTaskBody (role desc : String) (oracle : Nat → Except PyError String)
    (attempt : Nat) (st : ChannelState) : Except PyError String × ChannelState :=
  let st1 := onStart role desc st
  let st2 := onProgress role "Analyzing data..." st1
  match oracle attempt with
  | .ok r => (.ok r, onComplete role r st2)
  | .error e => (.error e, onProgress role ("Error: " ++ e.msg) st2)

/-- The tenacity retry loop around `execute_task`:
`stop_after_attempt(3)`, `wait_exponential(multiplier=1, min=4, max=10)`,
`retry_if_exception_type(APIConnectionError)`, `reraise=True`.
`allowed` is the number of attempts still permitted (3 at the top-level
call), `attempt` the 1-based number of the attempt about to run. Returns the
outcome, the list of backoff waits actually slept between attempts, and the
updated channel. -/
def retryCall (role desc : String) (oracle : Nat → Except PyError String) :
    Nat → Nat → ChannelState → Except PyError String × List Nat × ChannelState
  | 0, _, st => (.error (.other "retry loop exhausted"), [], st)
  | 1, attempt, st =>
    let (res, st1) := executeTaskBody role desc oracle attempt st
    (res, [], st1)
  | (n + 2), attempt, st =>
    let (res, st1) := executeTaskBody role desc oracle attempt st
    match res with
    | .ok r => (.ok r, [], st1)
    | .error e =>
      if e.isAPIConnectionError then
        let w := wait_exponential 1 4 10 attempt
        let (res2, ws, st2) := retryCall role desc oracle (n + 1) (attempt + 1) st1
        (res2, w :: ws, st2)
      else (.error e, [], st1)

/-- `EnhancedAgent.execute_task` as decorated: up to 3 attempts starting at
attempt 1. -/
def execute_task (role desc : String) (oracle : Nat → Except PyError String)
    (st : ChannelState) : Except PyError String × List Nat × ChannelState :=
  retryCall role desc oracle 3 1 st

/-- Number of queued events with the given status string. -/
def countStatus (events : List ProgressEvent) (status : String) : Nat :=
  events.countP (fun ev => ev.status == status)

/-! ### RiskManager (`market_analysis_crew.py` lines 116-149)

Float series are modelled over `ℝ`. pandas/numpy NaN outcomes (std or mean
of too few data points) are modelled with `Option ℝ` (`none` = NaN); the
`IndexError` that `np.percentile` raises on an empty array is an
`Except`-style error in `assess_market_risk`. -/

/-- `pd.Series(prices).pct_change().dropna()`: the list of period-over-period
changes `p[i] / p[i-1] - 1` (the leading NaN produced by `pct_change` is the
one entry removed by `dropna`). -/
noncomputable def pctChange : List ℝ → List ℝ
  | [] => []
  | [_] => []
  | a :: b :: rest => (b / a - 1) :: pctChange (b :: rest)

/-- pandas `Series.mean()`: the arithmetic mean (NaN on an empty series; the
callers below only use it where the NaN case is handled by `sampleStd`). -/
noncomputable def sampleMean (xs : List ℝ) : ℝ := xs.sum / xs.length

/-- pandas `Series.std()` uses `ddof=1`: the sample standard deviation, NaN
(here `none`) when the series has fewer than 2 entries. -/
noncomputable def sampleStd (xs : List ℝ) : Option ℝ :=
  if xs.length < 2 then none
  else some (Real.sqrt
    ((xs.map (fun x => (x - sampleMean xs) ^ 2)).sum / ((xs.length : ℝ) - 1)))

/-- `RiskManager.calculate_volatility`: `returns.std() * np.sqrt(252)`
(NaN propagates through the product). -/
noncomputable def calculate_volatility (prices : List ℝ) : Option ℝ :=
  (sampleStd (pctChange prices)).map (fun s => s * Real.sqrt 252)

/-- Stable insertion of one element into an ascending-sorted list. -/
noncomputable def insertSorted (x : ℝ) : List ℝ → List ℝ
  | [] => [x]
  | y :: ys => if x ≤ y then x :: y :: ys else y :: insertSorted x ys

/-- Ascending insertion sort on reals (the sort `np.percentile` performs
along its interpolation axis). -/
noncomputable def sortReal : List ℝ → List ℝ
  | [] => []
  | x :: xs => insertSorted x (sortReal xs)

/-- `np.percentile(xs, q)` with the default linear interpolation:
position `h = (n-1) * q / 100` in the sorted data, linearly interpolated
between the neighbouring order statistics. Raises `IndexError` (`none`) on an
empty array. -/
noncomputable def npPercentile (xs : List ℝ) (q : ℝ) : Option ℝ :=
  match xs with
  | [] => none
  | _ :: _ =>
    let s := sortReal xs
    let h : ℝ := ((xs.length : ℝ) - 1) * q / 100
    let lo : Nat := ⌊h⌋.toNat
    let hi : Nat := ⌈h⌉.toNat
    some (s.getD lo 0 + (h - (lo : ℝ)) * (s.getD hi 0 - s.getD lo 0))

/-- `RiskManager.calculate_var`: `np.percentile(returns, (1 - confidence_level)
* 100)`; `none` models the `IndexError` raised when the return series is
empty (i.e. fewer than 2 prices). -/
noncomputable def calculate_var (prices : List ℝ) (confidence_level : ℝ) : Option ℝ :=
  npPercentile (pctChange prices) ((1 - confidence_level) * 100)

/-- `RiskManager.calculate_sharpe_ratio` (named `calculate_sharpe` here):
`np.sqrt(252) * excess_returns.mean() / returns.std()` with per-period excess
over `risk_free_rate / 252`; NaN (`none`) whenever the std is NaN. -/
noncomputable def calculate_sharpe (prices : List ℝ) (risk_free_rate : ℝ) : Option ℝ :=
  let returns := pctChange prices
  (sampleStd returns).map (fun s =>
    Real.sqrt 252 * sampleMean (returns.map (fun r => r - risk_free_rate / 252)) / s)

/-- Python `float.__gt__` against a possibly-NaN left operand: a NaN compares
false against everything, otherwise the ordinary strict order. -/
noncomputable def floatGt : Option ℝ → ℝ → Bool
  | none, _ => false
  | some x, t => if t < x then true else false

/-- The `risk_assessment` ternary of `assess_market_risk` (line 148), which
recomputes `calculate_volatility` for each comparison:
`"high" if vol > 0.3 else "medium" if vol > 0.15 else "low"`. -/
noncomputable def risk_assessment (prices : List ℝ) : String :=
  if floatGt (calculate_volatility prices) 0.3 then "high"
  else if floatGt (calculate_volatility prices) 0.15 then "medium"
  else "low"

/-- The slice of the market-data mapping that `assess_market_risk` reads:
`market_data.get("price_history", [])` and `market_data.get("beta")` (the
latter `None` when the provider supplied no beta). -/
structure MarketInput where
  price_history : List ℝ
  beta : Option ℝ

/-- The two shapes of dict `assess_market_risk` can return: the error-tagged
single-key dict, or the five-key metrics dict (keys `volatility`,
`value_at_risk`, `sharpe_ratio` — field `sharpe` here — `beta`,
`risk_assessment`). -/
inductive RiskDict where
  | insufficientData (error : String)
  | metrics (volatility : Option ℝ) (value_at_risk : ℝ) (sharpe : Option ℝ)
      (beta : Option ℝ) (riskTier : String)

/-- `RiskManager.assess_market_risk`: return the error dict when the price
list is falsy (empty), otherwise build the five-key metrics dict. The dict
literal evaluates `calculate_var` before the remaining entries, so the
`IndexError` raised by `np.percentile` on an empty return series (a
single-point price history) propagates as an exception. -/
noncomputable def assess_market_risk (market_data : MarketInput) :
    Except PyError RiskDict :=
  let prices := market_data.price_history
  if prices.isEmpty then .ok (.insufficientData "Insufficient price data")
  else
    match calculate_var prices 0.95 with
    | none => .error (.indexError "cannot do a non-empty take from an empty axes")
    | some var =>
      .ok (.metrics (calculate_volatility prices) var
        (calculate_sharpe prices 0.05) market_data.beta (risk_assessment prices))

/-! ### financial_tools.py -/

/-- Result of a tool call that degrades to a single-key error dict on
failure: either the error dict or the data payload. -/
inductive ToolResult (α : Type) where
  | errorDict (error : String)
  | data (payload : α)
deriving DecidableEq

/-- The dict built by `stock_data_tool` from the yfinance `info` mapping and
one year of `history`. The Python dict keys are `current_price`,
`market_cap`, `volume`, `pe_ratio` (field `trailingPE` here),
`dividend_yield`, `price_history`, `volume_history`, `dates`. -/
structure StockData where
  current_price : Option ℝ
  market_cap : Option ℝ
  volume : Option ℝ
  trailingPE : Option ℝ
  dividend_yield : Option ℝ
  price_history : List ℝ
  volume_history : List ℝ
  dates : List String

/-- What the yfinance provider hands `stock_data_tool`: the `info` mapping as
a getter over key strings, the closing-price history, the volume history and
the formatted date index. The provider may raise. -/
structure YfQuote where
  info : String → Option ℝ
  closeHistory : List ℝ
  volumeHistory : List ℝ
  dates : List String

/-- `stock_data_tool(args)`: read `args.get("ticker")`, return the
`"No ticker provided"` error dict when the ticker is falsy (`None` or the
empty string), otherwise query yfinance and assemble the data dict; any
exception raised inside the body is converted to a `Failed to fetch` error
dict by the enclosing try/except. -/
def stock_data_tool (provider : String → Except PyError YfQuote)
    (args : Option String) : ToolResult StockData :=
  match args with
  | none => .errorDict "No ticker provided"
  | some ticker =>
    if ticker = "" then .errorDict "No ticker provided"
    else
      match provider ticker with
      | .error e => .errorDict ("Failed to fetch stock data: " ++ e.msg)
      | .ok q =>
        .data { current_price := q.info "currentPrice"
                market_cap := q.info "marketCap"
                volume := q.info "volume"
                trailingPE := q.info "trailingPE"
                dividend_yield := q.info "dividendYield"
                price_history := q.closeHistory
                volume_history := q.volumeHistory
                dates := q.dates }

/-- The four sub-group dicts built by `financial_metrics_tool`, each a
mapping of named ratios (values nullable). Modelled as association lists
keyed by the Python dict keys. -/
structure FinancialMetrics where
  profitability : List (String × Option ℝ)
  valuation : List (String × Option ℝ)
  growth : List (String × Option ℝ)
  financial_health : List (String × Option ℝ)

/-- `financial_metrics_tool(args)`: same falsy-ticker guard as
`stock_data_tool`, then assemble the four fixed sub-groups from the yfinance
`info` mapping; exceptions become a `Failed to fetch` error dict. -/
def financial_metrics_tool (provider : String → Except PyError (String → Option ℝ))
    (args : Option String) : ToolResult FinancialMetrics :=
  match args with
  | none => .errorDict "No ticker provided"
  | some ticker =>
    if ticker = "" then .errorDict "No ticker provided"
    else
      match provider ticker with
      | .error e => .errorDict ("Failed to fetch financial metrics: " ++ e.msg)
      | .ok info =>
        .data { profitability :=
                  [("gross_margin", info "grossMargins"),
                   ("operating_margin", info "operatingMargins"),
                   ("profit_margin", info "profitMargins"),
                   ("roe", info "returnOnEquity"),
                   ("roa", info "returnOnAssets")]
                valuation :=
                  [("pe_ratio", info "trailingPE"),
                   ("forward_pe", info "forwardPE"),
                   ("price_to_book", info "priceToBook"),
                   ("price_to_sales", info "priceToSalesTrailing12Months"),
                   ("ev_to_ebitda", info "enterpriseToEbitda")]
                growth :=
                  [("revenue_growth", info "revenueGrowth"),
                   ("earnings_growth", info "earningsGrowth"),
                   ("earnings_quarterly_growth", info "earningsQuarterlyGrowth")]
                financial_health :=
                  [("current_ratio", info "currentRatio"),
                   ("debt_to_equity", info "debtToEquity"),
                   ("quick_ratio", info "quickRatio"),
                   ("total_debt", info "totalDebt"),
                   ("total_cash", info "totalCash")] }

/-! ### MarketAnalysisCrew: result parsing and analyze_stock -/

/-- The two shapes `_parse_results` can return: the JSON-decoded structure,
or the fallback dict with keys `raw_analysis` and `timestamp`. `J` is the
type of decoded JSON values (left abstract: `json.loads` is an external
library capability). -/
inductive ParsedResult (J : Type) where
  | structured (value : J)
  | rawText (raw_analysis : String) (timestamp : String)
deriving DecidableEq

/-- `MarketAnalysisCrew._parse_results` (named `parse_results` here):
`try: return json.loads(result) except: return the raw_analysis dict` —
total, never raises, for every input string. `jsonLoads` models `json.loads`
(`none` = the parse raised), `now` models `datetime.now().isoformat()`. -/
def parse_results {J : Type} (jsonLoads : String → Option J) (now : String)
    (result : String) : ParsedResult J :=
  match jsonLoads result with
  | some v => .structured v
  | none => .rawText result now

/-- The external collaborators one `analyze_stock` run consumes:
`setup` bundles `create_agents` + `create_tasks` (both may raise inside the
try block), `kickoff` is `crew.kickoff()` (it runs the agents, which publish
to the channel, hence the state threading), `jsonLoads`/`now` parameterize
`_parse_results`, `isDict` tells whether a decoded JSON value is a Python
dict (string-key subscript assignment succeeds only on dicts; on a list,
string, number etc. it raises `TypeError`), and `stock_data` is the value of
`self.tools["stock_data"].func(ticker)` (a wrapper that never raises). -/
structure CrewEnv (J : Type) where
  setup : Except PyError Unit
  kickoff : ChannelState → Except PyError String × ChannelState
  jsonLoads : String → Option J
  isDict : J → Bool
  now : String
  stock_data : ToolResult StockData

/-- The market-data mapping `assess_market_risk` receives from
`analyze_stock`: on an error dict, `get("price_history", [])` yields `[]` and
`get("beta")` yields `None`; on a data dict, the price history is present and
there is no `beta` key at all (the tool never emits one), so `get("beta")` is
again `None`. -/
def ToolResult.toMarketInput : ToolResult StockData → MarketInput
  | .errorDict _ => { price_history := [], beta := none }
  | .data d => { price_history := d.price_history, beta := none }

/-- `MarketAnalysisCrew.analyze_stock` (lines 497-537): clear the global
message queue, build agents and tasks, run the crew, parse the terminal
output, fetch stock data, compute risk metrics, and attach them with
`analysis_results["risk_metrics"] = risk_metrics` (line 528) — a subscript
assignment that raises `TypeError` when `_parse_results` decoded the
terminal output as non-dict JSON (a list, string, number...). The `except`
clause logs and then re-raises (`raise`), so every exception from the body
propagates to the caller unchanged — modelled by the `Except` error simply
being returned. -/
noncomputable def analyze_stock {J : Type} (env : CrewEnv J) (st : ChannelState) :
    Except PyError (ParsedResult J × RiskDict) × ChannelState :=
  let st0 : ChannelState := { st with queue := [] }
  match env.setup with
  | .error e => (.error e, st0)
  | .ok _ =>
    match env.kickoff st0 with
    | (.error e, st1) => (.error e, st1)
    | (.ok result, st1) =>
      let analysis := parse_results env.jsonLoads env.now result
      match assess_market_risk env.stock_data.toMarketInput with
      | .error e => (.error e, st1)
      | .ok rm =>
        match analysis with
        | .structured v =>
          if env.isDict v then (.ok (.structured v, rm), st1)
          else (.error (.typeError "object does not support item assignment"), st1)
        | .rawText raw ts => (.ok (.rawText raw ts, rm), st1)

/-! ### Spec-side definitions (used only to state refinement claims)

These follow the wording of the specification, not the source, and exist to
be compared against the source-derived definitions above. -/

/-- Modelled from the spec: the "period-over-period percentage returns" of a
price series, `(p[i] - p[i-1]) / p[i-1]`. -/
noncomputable def specReturns (prices : List ℝ) : List ℝ :=
  List.zipWith (fun p q => (q - p) / p) prices prices.tail

/-- Modelled from the spec: the sample standard deviation of a series,
undefined (NaN) below 2 data points. -/
noncomputable def specStdev (xs : List ℝ) : Option ℝ :=
  if 2 ≤ xs.length then
    some (Real.sqrt
      ((xs.map (fun x => (x - xs.sum / xs.length) ^ 2)).sum / ((xs.length : ℝ) - 1)))
  else none

/-- Modelled from the spec: "volatility = standard deviation of
period-over-period percentage returns, annualized by multiplying by √252". -/
noncomputable def specVolatility (prices : List ℝ) : Option ℝ :=
  (specStdev (specReturns prices)).map (fun s => s * Real.sqrt 252)

/-- Whether an `Except`-modelled Python call returned normally (`true`) or
raised (`false`). -/
def exceptOk {α : Type} : Except PyError α → Bool
  | .ok _ => true
  | .error _ => false

/-! ### Theorems -/

/-- C8: draining the Progress Channel is destructive and idempotent — for
every channel state, `get_agent_messages` returns exactly the queued events
in publish (FIFO) order and empties the queue; publishing appends at the
tail, so after one publish the drain returns that event last, and a second
drain returns the empty sequence. -/
theorem c8_drain_destructive_idempotent (st : ChannelState)
    (a1 m1 s1 a2 m2 s2 : String) (r1 r2 : Option String) :
    (get_agent_messages st).1 = st.queue ∧
    (get_agent_messages st).2.queue = [] ∧
    (get_agent_messages (get_agent_messages st).2).1 = [] ∧
    (get_agent_messages (addMessage a1 m1 s1 r1 st)).1
      = st.queue ++ [⟨st.clock, a1, m1, s1, r1⟩] ∧
    (get_agent_messages (addMessage a2 m2 s2 r2 (addMessage a1 m1 s1 r1 st))).1
      = st.queue ++ [⟨st.clock, a1, m1, s1, r1⟩, ⟨st.clock + 1, a2, m2, s2, r2⟩] := by
  simp [get_agent_messages, addMessage]

/-- C9: when the `ticker` argument is absent or the empty (falsy) string,
both `stock_data_tool` and `financial_metrics_tool` return the
`No ticker provided` error dict, and the result does not depend on the
market-data provider at all (the provider is never queried). -/
theorem c9_falsy_ticker_guard :
    (∀ p1 p2 : String → Except PyError YfQuote,
      stock_data_tool p1 none = .errorDict "No ticker provided" ∧
      stock_data_tool p1 (some "") = .errorDict "No ticker provided" ∧
      stock_data_tool p1 none = stock_data_tool p2 none ∧
      stock_data_tool p1 (some "") = stock_data_tool p2 (some "")) ∧
    (∀ q1 q2 : String → Except PyError (String → Option ℝ),
      financial_metrics_tool q1 none = .errorDict "No ticker provided" ∧
      financial_metrics_tool q1 (some "") = .errorDict "No ticker provided" ∧
      financial_metrics_tool q1 none = financial_metrics_tool q2 none ∧
      financial_metrics_tool q1 (some "") = financial_metrics_tool q2 (some "")) := by
  refine ⟨fun p1 p2 => ⟨rfl, ?_, rfl, ?_⟩, fun q1 q2 => ⟨rfl, ?_, rfl, ?_⟩⟩ <;>
    simp [stock_data_tool, financial_metrics_tool]

/-- C6: `_parse_results` never raises — if the terminal output parses as
JSON the decoded structure is returned, otherwise the fallback dict carrying
`raw_analysis` (the original text) and a generation timestamp. -/
theorem c6_parse_results_total {J : Type} (jsonLoads : String → Option J)
    (now s : String) :
    (∀ v, jsonLoads s = some v → parse_results jsonLoads now s = .structured v) ∧
    (jsonLoads s = none → parse_results jsonLoads now s = .rawText s now) := by
  constructor
  · intro v hv; simp [parse_results, hv]
  · intro hn; simp [parse_results, hn]

/-- Witness for C6 at the spec's concrete input: a decoder that rejects the
literal text `not json` makes `parse_results` return the raw-text fallback. -/
theorem c6_witness :
    (fun _ : String => (none : Option Nat)) "not json" = none ∧
    parse_results (fun _ : String => (none : Option Nat))
        "2025-01-01T00:00:00" "not json"
      = .rawText "not json" "2025-01-01T00:00:00" :=
  ⟨rfl, (c6_parse_results_total (fun _ => (none : Option Nat))
    "2025-01-01T00:00:00" "not json").2 rfl⟩

/-- C2 (code bug): the guard in `assess_market_risk` only catches an *empty*
price list. A single-point series `[100]` passes the guard, its return
series is empty, and `np.percentile` then raises `IndexError` instead of the
claimed error-tagged result; the empty series is the only input the
`Insufficient price data` branch covers. -/
theorem c2_singleton_slips_past_guard :
    assess_market_risk { price_history := [100], beta := none }
      = .error (.indexError "cannot do a non-empty take from an empty axes") ∧
    assess_market_risk { price_history := [], beta := none }
      = .ok (.insufficientData "Insufficient price data") :=
  ⟨rfl, rfl⟩

/-- Counterexample to C10 as stated: `[100]` is a non-empty price history,
yet `assess_market_risk` does not return the five-key metrics dict — the
call raises. -/
theorem c10_counterexample :
    exceptOk (assess_market_risk { price_history := [100], beta := none }) = false :=
  rfl

/-- The return series is one entry shorter than the price series. -/
theorem pctChange_length : ∀ prices : List ℝ,
    (pctChange prices).length = prices.length - 1
  | [] => rfl
  | [_] => rfl
  | _ :: b :: rest => by
    simp [pctChange, pctChange_length (b :: rest)]

/-- `np.percentile` returns a value on every non-empty array. -/
theorem npPercentile_isSome (xs : List ℝ) (q : ℝ) (h : xs ≠ []) :
    ∃ y, npPercentile xs q = some y := by
  match xs with
  | [] => exact absurd rfl h
  | a :: rest => exact ⟨_, rfl⟩

/-- C10 (amended): the error-tagged branch of `assess_market_risk` is taken
exactly on an empty (or missing) price history; for a price history of
length at least 2 the call returns the five-key metrics dict, with
`risk_assessment` one of `high`/`medium`/`low` and `beta` passed through
unchanged from the provider. (A singleton history raises instead — see the
counterexample.) -/
theorem c10_metrics_dict_shape (md : MarketInput) :
    (md.price_history = [] →
      assess_market_risk md = .ok (.insufficientData "Insufficient price data")) ∧
    (2 ≤ md.price_history.length →
      (∃ var, assess_market_risk md
        = .ok (.metrics (calculate_volatility md.price_history) var
            (calculate_sharpe md.price_history 0.05) md.beta
            (risk_assessment md.price_history))) ∧
      (risk_assessment md.price_history = "high" ∨
       risk_assessment md.price_history = "medium" ∨
       risk_assessment md.price_history = "low")) := by
  constructor
  · intro h; simp [assess_market_risk, h]
  · intro h
    have hne : pctChange md.price_history ≠ [] := by
      intro hnil
      have := pctChange_length md.price_history
      rw [hnil] at this
      simp at this
      omega
    obtain ⟨y, hy⟩ := npPercentile_isSome (pctChange md.price_history)
      ((1 - 0.95) * 100) hne
    have hempty : md.price_history.isEmpty = false := by
      cases hpH : md.price_history with
      | nil => rw [hpH] at h; simp at h
      | cons a l => simp
    constructor
    · exact ⟨y, by simp [assess_market_risk, hempty, calculate_var, hy]⟩
    · unfold risk_assessment
      split_ifs <;> simp

/-- Counterexample to C1 as stated: an environment in which the crew kickoff
raises makes `analyze_stock` itself propagate that exception to its caller
(the model result is the error, not a normally returned `AnalysisResult`
with a populated `error` field). -/
theorem c1_counterexample :
    (analyze_stock (J := Unit)
      { setup := .ok ()
        kickoff := fun st => (.error (.other "pipeline failure"), st)
        jsonLoads := fun _ => none
        isDict := fun _ => true
        now := "2025-01-01T00:00:00"
        stock_data := .errorDict "fetch failed" }
      ⟨[], 0⟩).1 = .error (.other "pipeline failure") :=
  rfl

/-- C1 (amended): `analyze_stock` does not convert exceptions into an
error-field result — its `except` clause logs and re-raises, so every
exception from agent/task construction, the crew kickoff, the risk-metric
computation, or the `risk_metrics` subscript assignment on a non-dict parsed
output (line 528) propagates unchanged to the caller; a normal return
happens only when all of those steps succeed, i.e. when additionally the
parsed terminal output is a JSON object or the raw-text fallback dict. -/
theorem c1_exceptions_propagate {J : Type} (env : CrewEnv J) (st : ChannelState) :
    (∀ e, env.setup = .error e → (analyze_stock env st).1 = .error e) ∧
    (∀ e st1, env.setup = .ok () →
      env.kickoff { st with queue := [] } = (.error e, st1) →
      (analyze_stock env st).1 = .error e) ∧
    (∀ r st1 e, env.setup = .ok () →
      env.kickoff { st with queue := [] } = (.ok r, st1) →
      assess_market_risk env.stock_data.toMarketInput = .error e →
      (analyze_stock env st).1 = .error e) ∧
    (∀ r st1 rm v, env.setup = .ok () →
      env.kickoff { st with queue := [] } = (.ok r, st1) →
      assess_market_risk env.stock_data.toMarketInput = .ok rm →
      parse_results env.jsonLoads env.now r = .structured v →
      env.isDict v = false →
      (analyze_stock env st).1
        = .error (.typeError "object does not support item assignment")) ∧
    (∀ r st1 rm v, env.setup = .ok () →
      env.kickoff { st with queue := [] } = (.ok r, st1) →
      assess_market_risk env.stock_data.toMarketInput = .ok rm →
      parse_results env.jsonLoads env.now r = .structured v →
      env.isDict v = true →
      (analyze_stock env st).1 = .ok (.structured v, rm)) ∧
    (∀ r st1 rm raw ts, env.setup = .ok () →
      env.kickoff { st with queue := [] } = (.ok r, st1) →
      assess_market_risk env.stock_data.toMarketInput = .ok rm →
      parse_results env.jsonLoads env.now r = .rawText raw ts →
      (analyze_stock env st).1 = .ok (.rawText raw ts, rm)) := by
  refine ⟨?_, ?_, ?_, ?_, ?_, ?_⟩
  · intro e he; simp [analyze_stock, he]
  · intro e st1 hs hk; simp [analyze_stock, hs, hk]
  · intro r st1 e hs hk ha; simp [analyze_stock, hs, hk, ha]
  · intro r st1 rm v hs hk ha hp hd; simp [analyze_stock, hs, hk, ha, hp, hd]
  · intro r st1 rm v hs hk ha hp hd; simp [analyze_stock, hs, hk, ha, hp, hd]
  · intro r st1 rm raw ts hs hk ha hp; simp [analyze_stock, hs, hk, ha, hp]

/-- Witness for C1 (amended): a concrete environment whose setup step raises
makes `analyze_stock` return that very exception. -/
theorem c1_witness :
    ((⟨.error (.other "boom"), fun st => (.ok "", st), fun _ => none,
        fun _ => true, "t0", .errorDict "x"⟩ : CrewEnv Unit).setup
      = .error (.other "boom")) ∧
    (analyze_stock (J := Unit)
      ⟨.error (.other "boom"), fun st => (.ok "", st), fun _ => none,
        fun _ => true, "t0", .errorDict "x"⟩ ⟨[], 0⟩).1
      = .error (.other "boom") :=
  ⟨rfl, (c1_exceptions_propagate
    (⟨.error (.other "boom"), fun st => (.ok "", st), fun _ => none,
      fun _ => true, "t0", .errorDict "x"⟩ : CrewEnv Unit) ⟨[], 0⟩).1 _ rfl⟩

/-- Witness for C10 (amended): the three-point series `[1, 1, 1]` has length
at least 2 and `assess_market_risk` returns the metrics dict for it. -/
theorem c10_witness :
    2 ≤ ({ price_history := [1, 1, 1], beta := none } : MarketInput).price_history.length ∧
    ((∃ var, assess_market_risk { price_history := [1, 1, 1], beta := none }
        = .ok (.metrics (calculate_volatility [1, 1, 1]) var
            (calculate_sharpe [1, 1, 1] 0.05) none (risk_assessment [1, 1, 1]))) ∧
      (risk_assessment [1, 1, 1] = "high" ∨
       risk_assessment [1, 1, 1] = "medium" ∨
       risk_assessment [1, 1, 1] = "low")) :=
  ⟨by norm_num,
   (c10_metrics_dict_shape { price_history := [1, 1, 1], beta := none }).2 (by norm_num)⟩

/-- Publishing one message changes each per-status count by exactly the
indicator of that status. -/
theorem countStatus_addMessage (ag msg stat : String) (res : Option String)
    (st : ChannelState) (s : String) :
    countStatus (addMessage ag msg stat res st).queue s
      = countStatus st.queue s + (if stat == s then 1 else 0) := by
  simp [countStatus, addMessage, List.countP_append, List.countP_cons]

/-- C3: the retry policy of `execute_task` — a non-transient first failure is
not retried (exactly one attempt, no backoff waits, the exception propagates
after the error progress event), while transient connectivity failures are
retried with waits `wait_exponential(multiplier=1, min=4, max=10)` up to 3
attempts total (here: three starts on the channel, waits `[4, 4]`), the
final underlying failure being re-raised unwrapped on exhaustion. -/
theorem c3_retry_policy (role desc : String) (oracle : Nat → Except PyError String)
    (st : ChannelState) :
    (∀ e, oracle 1 = .error e → e.isAPIConnectionError = false →
      execute_task role desc oracle st
        = (.error e, [],
            onProgress role ("Error: " ++ e.msg)
              (onProgress role "Analyzing data..." (onStart role desc st)))) ∧
    (∀ e1 e2 e3, oracle 1 = .error e1 → e1.isAPIConnectionError = true →
      oracle 2 = .error e2 → e2.isAPIConnectionError = true →
      oracle 3 = .error e3 →
      (execute_task role desc oracle st).1 = .error e3 ∧
      (execute_task role desc oracle st).2.1
        = [wait_exponential 1 4 10 1, wait_exponential 1 4 10 2] ∧
      [wait_exponential 1 4 10 1, wait_exponential 1 4 10 2] = [4, 4] ∧
      countStatus (execute_task role desc oracle st).2.2.queue "start"
        = countStatus st.queue "start" + 3) := by
  constructor
  · intro e h1 hf
    simp [execute_task, retryCall, executeTaskBody, h1, hf]
  · intro e1 e2 e3 h1 t1 h2 t2 h3
    refine ⟨?_, ?_, by simp [wait_exponential], ?_⟩ <;>
      simp [execute_task, retryCall, executeTaskBody, h1, t1, h2, t2, h3,
        onStart, onProgress, onComplete, countStatus_addMessage]

/-- Witness for C3: a concrete non-transient (`ValueError`) first failure is
returned after a single attempt with the single-attempt event trace. -/
theorem c3_witness :
    ((fun n => if n = 1 then Except.error (PyError.valueError "bad input")
        else Except.ok "ok") 1 : Except PyError String)
      = .error (.valueError "bad input") ∧
    (PyError.valueError "bad input").isAPIConnectionError = false ∧
    execute_task "Technical Analysis Specialist" "analyze"
        (fun n => if n = 1 then .error (.valueError "bad input") else .ok "ok")
        ⟨[], 0⟩
      = (.error (.valueError "bad input"), [],
          onProgress "Technical Analysis Specialist"
            ("Error: " ++ (PyError.valueError "bad input").msg)
            (onProgress "Technical Analysis Specialist" "Analyzing data..."
              (onStart "Technical Analysis Specialist" "analyze" ⟨[], 0⟩))) :=
  ⟨rfl, rfl,
    (c3_retry_policy "Technical Analysis Specialist" "analyze"
      (fun n => if n = 1 then .error (.valueError "bad input") else .ok "ok")
      ⟨[], 0⟩).1 _ rfl rfl⟩

/-- Counterexample to C4 as stated: the tenacity decorator wraps the whole
method body, including the `on_start` callback, so the two-transient-failures
then-success scenario publishes one `start` event per attempt — three in
total, not exactly one. -/
theorem c4_counterexample :
    countStatus
      (execute_task "Risk Management Specialist" "assess risk"
        (fun n => if n ≤ 2 then .error (.apiConnectionError "connection reset")
          else .ok "final answer")
        ⟨[], 0⟩).2.2.queue "start" ≠ 1 := by
  decide

/-- C4 (amended): with transient-connectivity failures on attempts 1 and 2
and success on attempt 3, `execute_task` returns the successful result after
exactly 3 attempts (2 backoff waits), and the Progress Channel trace gains
one `start` event per attempt (three in total), at least one `progress`
event per attempt (five in total: the synthetic marker each attempt plus an
error report for each failed attempt), and exactly one `complete` event. -/
theorem c4_retry_trace (role desc : String) (oracle : Nat → Except PyError String)
    (st : ChannelState) (e1 e2 : PyError) (r : String)
    (h1 : oracle 1 = .error e1) (t1 : e1.isAPIConnectionError = true)
    (h2 : oracle 2 = .error e2) (t2 : e2.isAPIConnectionError = true)
    (h3 : oracle 3 = .ok r) :
    (execute_task role desc oracle st).1 = .ok r ∧
    (execute_task role desc oracle st).2.1.length + 1 = 3 ∧
    countStatus (execute_task role desc oracle st).2.2.queue "start"
      = countStatus st.queue "start" + 3 ∧
    countStatus (execute_task role desc oracle st).2.2.queue "progress"
      = countStatus st.queue "progress" + 5 ∧
    countStatus (execute_task role desc oracle st).2.2.queue "complete"
      = countStatus st.queue "complete" + 1 := by
  refine ⟨?_, ?_, ?_, ?_, ?_⟩ <;>
    simp [execute_task, retryCall, executeTaskBody, h1, t1, h2, t2, h3,
      onStart, onProgress, onComplete, countStatus_addMessage]

/-- Witness for C4 (amended): the concrete scenario with connection resets on
attempts 1 and 2 and success on attempt 3. -/
theorem c4_witness :
    ((fun n => if n ≤ 2 then Except.error (PyError.apiConnectionError "connection reset")
        else Except.ok "final answer") 1 : Except PyError String)
      = .error (.apiConnectionError "connection reset") ∧
    (PyError.apiConnectionError "connection reset").isAPIConnectionError = true ∧
    ((fun n => if n ≤ 2 then Except.error (PyError.apiConnectionError "connection reset")
        else Except.ok "final answer") 3 : Except PyError String) = .ok "final answer" ∧
    (execute_task "Risk Management Specialist" "assess risk"
      (fun n => if n ≤ 2 then .error (.apiConnectionError "connection reset")
        else .ok "final answer") ⟨[], 0⟩).1 = .ok "final answer" :=
  ⟨rfl, rfl, rfl,
    (c4_retry_trace "Risk Management Specialist" "assess risk"
      (fun n => if n ≤ 2 then .error (.apiConnectionError "connection reset")
        else .ok "final answer") ⟨[], 0⟩ _ _ _ rfl rfl rfl rfl rfl).1⟩

/-- A non-NaN float compares `>` against a threshold exactly by the strict
order of the underlying reals. -/
theorem floatGt_some (x t : ℝ) : (floatGt (some x) t = true) ↔ t < x := by
  simp [floatGt]

/-- C5: the risk tier is `high` exactly when the computed volatility exceeds
0.30 strictly, `medium` exactly when it exceeds 0.15 strictly but not 0.30,
and `low` otherwise — so the boundary volatilities 0.30 and 0.15 classify as
`medium` and `low` respectively (strict comparisons). -/
theorem c5_risk_tier_thresholds (prices : List ℝ) (v : ℝ)
    (h : calculate_volatility prices = some v) :
    (risk_assessment prices = "high" ↔ 0.3 < v) ∧
    (risk_assessment prices = "medium" ↔ 0.15 < v ∧ v ≤ 0.3) ∧
    (risk_assessment prices = "low" ↔ v ≤ 0.15) := by
  unfold risk_assessment
  rw [h]
  split_ifs with hc1 hc2
  · rw [floatGt_some] at hc1
    have hm : ¬ v ≤ 0.3 := not_le.mpr hc1
    refine ⟨⟨fun _ => hc1, fun _ => rfl⟩, ?_, ?_⟩
    · exact ⟨fun hs => absurd hs (by decide), fun hx => absurd hx.2 hm⟩
    · exact ⟨fun hs => absurd hs (by decide),
        fun hx => absurd (hc1.trans_le hx) (by norm_num)⟩
  · rw [floatGt_some] at hc2
    rw [floatGt_some] at hc1
    push_neg at hc1
    refine ⟨?_, ⟨fun _ => ⟨hc2, hc1⟩, fun _ => rfl⟩, ?_⟩
    · exact ⟨fun hs => absurd hs (by decide), fun hx => absurd hx (not_lt.mpr hc1)⟩
    · exact ⟨fun hs => absurd hs (by decide),
        fun hx => absurd (hc2.trans_le hx) (by norm_num)⟩
  · rw [floatGt_some] at hc1
    rw [floatGt_some] at hc2
    push_neg at hc1 hc2
    refine ⟨?_, ?_, ⟨fun _ => hc2, fun _ => rfl⟩⟩
    · exact ⟨fun hs => absurd hs (by decide), fun hx => absurd hx (not_lt.mpr (hc1))⟩
    · exact ⟨fun hs => absurd hs (by decide), fun hx => absurd hx.1 (not_lt.mpr hc2)⟩

/-- A constant price series has zero volatility (each period return is 0 and
the sample deviation of `[0, 0]` is 0). -/
theorem volatility_const_ones : calculate_volatility [1, 1, 1] = some 0 := by
  have h1 : pctChange [1, 1, 1] = [0, 0] := by
    norm_num [pctChange]
  rw [calculate_volatility, h1, sampleStd]
  norm_num [sampleMean, Real.sqrt_zero]

/-- Witness for C5: the constant series `[1, 1, 1]` has volatility 0, which
classifies as `low`. -/
theorem c5_witness :
    calculate_volatility [1, 1, 1] = some 0 ∧
    (risk_assessment [1, 1, 1] = "low" ↔ (0 : ℝ) ≤ 0.15) :=
  ⟨volatility_const_ones,
    (c5_risk_tier_thresholds [1, 1, 1] 0 volatility_const_ones).2.2⟩

/-- On a zero-free price series the source's `p[i] / p[i-1] - 1` returns
coincide with the spec's `(p[i] - p[i-1]) / p[i-1]` percentage returns. -/
theorem pctChange_eq_specReturns :
    ∀ l : List ℝ, (∀ p ∈ l, p ≠ 0) → pctChange l = specReturns l
  | [], _ => rfl
  | [_], _ => rfl
  | a :: b :: rest, h => by
    have ha : a ≠ 0 := h a (by simp)
    have ih := pctChange_eq_specReturns (b :: rest) (fun p hp => h p (by simp [hp]))
    have hhead : b / a - 1 = (b - a) / a := by
      rw [sub_div, div_self ha]
    simpa [pctChange, specReturns, hhead] using by simpa [specReturns] using ih

/-- The pandas sample standard deviation and the spec's sample standard
deviation agree on every series (both NaN below 2 points). -/
theorem sampleStd_eq_specStdev (xs : List ℝ) : sampleStd xs = specStdev xs := by
  unfold sampleStd specStdev sampleMean
  rcases lt_or_ge xs.length 2 with hl | hl
  · rw [if_pos hl, if_neg (by omega)]
  · rw [if_neg (by omega), if_pos (by omega)]

/-- C7: for every zero-free price series of length at least 2,
`calculate_volatility` equals the spec's formula — the sample standard
deviation of the period-over-period percentage returns multiplied by √252
(both sides NaN for a 2-point series, whose single return has no deviation). -/
theorem c7_volatility_definition (prices : List ℝ) (h2 : 2 ≤ prices.length)
    (hz : ∀ p ∈ prices, p ≠ 0) :
    calculate_volatility prices = specVolatility prices := by
  unfold calculate_volatility specVolatility
  rw [pctChange_eq_specReturns prices hz, sampleStd_eq_specStdev]

/-- Witness for C7 at the spec's example series `[100, 105, 102]`. -/
theorem c7_witness :
    2 ≤ ([100, 105, 102] : List ℝ).length ∧
    (∀ p ∈ ([100, 105, 102] : List ℝ), p ≠ 0) ∧
    calculate_volatility [100, 105, 102] = specVolatility [100, 105, 102] :=
  ⟨by norm_num, by norm_num,
    c7_volatility_definition [100, 105, 102] (by norm_num) (by norm_num)⟩

end StockCrew
